import Mathlib

/-!
Verification development for the WebSocket chat server (`server.js`).

The server keeps a process-wide `users` Map from display name to
connection, and per connection a `username` property and a readyState.
Inbound frames are JSON objects; `JSON.stringify` omits fields whose
value is `undefined`, and JS template literals render `undefined` as the
string "undefined".  We embed this shallowly:

* a JS string-or-undefined value is `Option String` (`none` = undefined);
* a connection (`ws`) is a `Session` carrying its identity `sid`, its
  `readyState === OPEN` flag `isOpen`, and its `username` property;
* the `users` Map is an insertion-ordered association list
  `List (Option String × Nat)` whose values are session ids (the Map key
  may be `undefined`, since the code never validates `msg.username`);
* the handlers `ws.on("message")` and `ws.on("close")` become pure
  functions from a `ServerState` and an event to the next state paired
  with the list of frames sent, in order, as `(recipient sid, frame)`.
-/

namespace WebSocketChat

/-- One connected client: `sid` identifies the underlying `ws` object,
`isOpen` is `readyState === WebSocket.OPEN`, and `username` is the
`ws.username` property (`none` while still undefined). -/
structure Session where
  sid : Nat
  isOpen : Bool
  username : Option String
  deriving DecidableEq

/-- The server's shared state: the `users` Map (insertion-ordered
association list from name key to session id, mirroring a JS `Map`) and
the set of connections `wss.clients` with their per-connection state.
Connections are never removed from `clients`; closing marks `isOpen`
false, which is what every readyState check in the code observes. -/
structure ServerState where
  users : List (Option String × Nat)
  clients : List Session
  deriving DecidableEq

/-- An outbound frame, one constructor per object literal the server
stringifies.  Fields that the code may populate with `undefined` are
`Option String`. -/
inductive Frame where
  | system (message : String)
  | private_message (fromName : Option String) (message : Option String)
  | delivered (toName : Option String) (message : Option String)
  | typing (fromName : Option String)
  | user_list (users : List (Option String))
  deriving DecidableEq

/-- Key list contributed by one optional field: `JSON.stringify` omits a
field whose value is `undefined`. -/
def optKey (k : String) : Option String → List String
  | none => []
  | some _ => [k]

/-- The JSON keys present in the serialized form of a frame, following
the object literals in `server.js` and `JSON.stringify`'s omission of
`undefined`-valued fields. -/
def frameKeys : Frame → List String
  | .system _ => ["type", "message"]
  | .private_message f m => "type" :: (optKey "from" f ++ optKey "message" m)
  | .delivered t m => "type" :: (optKey "to" t ++ optKey "message" m)
  | .typing f => "type" :: optKey "from" f
  | .user_list _ => ["type", "users"]

/-- A parsed inbound JSON object; each field the server reads, `none`
when the field is absent from the frame. -/
structure Msg where
  type : Option String
  username : Option String
  toName : Option String
  message : Option String
  deriving DecidableEq

/-- An inbound data event: either text that fails `JSON.parse` (the
`catch` path) or a parsed object. -/
inductive Inbound where
  | malformed
  | parsed (msg : Msg)
  deriving DecidableEq

/-- The events a connection delivers to the server. -/
inductive Event where
  | connect (sid : Nat)
  | message (sid : Nat) (inb : Inbound)
  | close (sid : Nat)
  deriving DecidableEq

/-- `users.has(k)`. -/
def mapHas (k : Option String) (m : List (Option String × Nat)) : Bool :=
  m.any (fun p => p.1 = k)

/-- `users.get(k)`. -/
def mapGet (k : Option String) : List (Option String × Nat) → Option Nat
  | [] => none
  | (k2, v2) :: rest => if k2 = k then some v2 else mapGet k rest

/-- `users.set(k, v)`: update in place if the key exists (JS `Map`
preserves insertion order on update), else append. -/
def mapSet (k : Option String) (v : Nat) : List (Option String × Nat) → List (Option String × Nat)
  | [] => [(k, v)]
  | (k2, v2) :: rest => if k2 = k then (k2, v) :: rest else (k2, v2) :: mapSet k v rest

/-- `users.delete(k)`. -/
def mapDelete (k : Option String) : List (Option String × Nat) → List (Option String × Nat)
  | [] => []
  | (k2, v2) :: rest => if k2 = k then rest else (k2, v2) :: mapDelete k rest

/-- Look a connection up in `wss.clients` by identity. -/
def findSession (cs : List Session) (sid : Nat) : Option Session :=
  cs.find? (fun c => c.sid == sid)

/-- `ws.username = u` on the connection with identity `sid`. -/
def setUsername (cs : List Session) (sid : Nat) (u : Option String) : List Session :=
  cs.map (fun c => if c.sid = sid then { c with username := u } else c)

/-- `ws.close()` (and the transport reaching a non-OPEN readyState). -/
def closeConn (cs : List Session) (sid : Nat) : List Session :=
  cs.map (fun c => if c.sid = sid then { c with isOpen := false } else c)

/-- JS truthiness of `ws.username`: `undefined` and the empty string are
falsy. -/
def truthy : Option String → Bool
  | none => false
  | some s => s ≠ ""

/-- JS template-literal rendering of a string-or-undefined value. -/
def jsStr : Option String → String
  | none => "undefined"
  | some s => s

/-- `broadcast(data)`: send one frame to every connection whose
`readyState === WebSocket.OPEN`. -/
def broadcast (st : ServerState) (f : Frame) : List (Nat × Frame) :=
  (st.clients.filter (fun c => c.isOpen)).map (fun c => (c.sid, f))

/-- `updateUserList()`: broadcast the full key list of the `users` Map
(insertion order, i.e. login order) as a `user_list` frame. -/
def updateUserList (st : ServerState) : List (Nat × Frame) :=
  broadcast st (.user_list (st.users.map Prod.fst))

/-- `receiver = users.get(msg.to)` followed by the
`receiver && receiver.readyState === WebSocket.OPEN` check: the id of
the recipient's connection when it exists and is open. -/
def liveRecipient (st : ServerState) (toName : Option String) : Option Nat :=
  match mapGet toName st.users with
  | none => none
  | some rid =>
    match findSession st.clients rid with
    | none => none
    | some r => if r.isOpen then some rid else none

/-- The body of the `ws.on("message")` handler after a successful
`JSON.parse`, for the connection `ws`: the three `if` branches on
`msg.type` (`login` returns early; the `private_message` and `typing`
blocks are sequential non-exclusive `if`s, at most one of which can
match a given `msg.type`). -/
def handleParsed (st : ServerState) (ws : Session) (msg : Msg) :
    ServerState × List (Nat × Frame) :=
  if msg.type = some "login" then
    if mapHas msg.username st.users then
      ({ st with clients := closeConn st.clients ws.sid },
        [(ws.sid, .system "Username already taken!")])
    else
      let st1 : ServerState :=
        { users := mapSet msg.username ws.sid st.users,
          clients := setUsername st.clients ws.sid msg.username }
      (st1,
        (ws.sid, Frame.system ("Welcome, " ++ jsStr msg.username ++ "!")) ::
          updateUserList st1)
  else
    let pmOut : List (Nat × Frame) :=
      if msg.type = some "private_message" then
        match liveRecipient st msg.toName with
        | some rid =>
          [(rid, .private_message ws.username msg.message),
            (ws.sid, .delivered msg.toName msg.message)]
        | none =>
          [(ws.sid, .system ("User " ++ jsStr msg.toName ++ " not available"))]
      else []
    let tyOut : List (Nat × Frame) :=
      if msg.type = some "typing" then
        match liveRecipient st msg.toName with
        | some rid => [(rid, .typing ws.username)]
        | none => []
      else []
    (st, pmOut ++ tyOut)

/-- The full `ws.on("message")` handler: a parse failure is caught and
only logged; otherwise the parsed object is dispatched for the sending
connection. -/
def handleMessage (st : ServerState) (sid : Nat) (inb : Inbound) :
    ServerState × List (Nat × Frame) :=
  match inb with
  | .malformed => (st, [])
  | .parsed msg =>
    match findSession st.clients sid with
    | none => (st, [])
    | some ws => handleParsed st ws msg

/-- The `ws.on("close")` handler: the transport is no longer open; if
`ws.username` is truthy, delete it from the Map and broadcast the
updated roster. -/
def handleClose (st : ServerState) (sid : Nat) :
    ServerState × List (Nat × Frame) :=
  let st0 : ServerState := { st with clients := closeConn st.clients sid }
  match findSession st.clients sid with
  | none => (st0, [])
  | some ws =>
    if truthy ws.username then
      let st1 : ServerState := { st0 with users := mapDelete ws.username st0.users }
      (st1, updateUserList st1)
    else (st0, [])

/-- One server step: a new connection (`wss.on("connection")`, which
registers the handlers and adds the client), an inbound data event, or a
close event. -/
def step (st : ServerState) : Event → ServerState × List (Nat × Frame)
  | .connect sid => ({ st with clients := st.clients ++ [⟨sid, true, none⟩] }, [])
  | .message sid inb => handleMessage st sid inb
  | .close sid => handleClose st sid

/-- The state at process start: empty `users` Map, no clients. -/
def initState : ServerState := ⟨[], []⟩

/-- Run a sequence of events, keeping only the final state. -/
def run (st : ServerState) : List Event → ServerState
  | [] => st
  | e :: es => run (step st e).1 es

/-- The number of sessions that are open and authenticated (their
`ws.username` has been set by an accepted login). -/
def authOpenCount (st : ServerState) : Nat :=
  (st.clients.filter (fun c => c.isOpen && c.username.isSome)).length

/-! ### Concrete states used to instantiate or refute the claims -/

/-- Two clients, both logged in: `A` on connection 0, `B` on connection 1. -/
def stAB : ServerState :=
  ⟨[(some "A", 0), (some "B", 1)], [⟨0, true, some "A"⟩, ⟨1, true, some "B"⟩]⟩

/-- One client logged in as `A` on connection 0. -/
def stA : ServerState := ⟨[(some "A", 0)], [⟨0, true, some "A"⟩]⟩

/-- Connection 0 still connecting (no login); `A` logged in on connection 1. -/
def stConnA : ServerState :=
  ⟨[(some "A", 1)], [⟨0, true, none⟩, ⟨1, true, some "A"⟩]⟩

/-- `A` logged in on connection 0; connection 1 still connecting. -/
def stAConn : ServerState :=
  ⟨[(some "A", 0)], [⟨0, true, some "A"⟩, ⟨1, true, none⟩]⟩

/-- A single connecting client on connection 0, empty registry. -/
def stConn : ServerState := ⟨[], [⟨0, true, none⟩]⟩

/-- The event trace used against the registry invariant: connection 0
logs in as `A`, then (already authenticated) logs in again as `B`, then
disconnects. -/
def c3Trace : List Event :=
  [.connect 0, .message 0 (.parsed ⟨some "login", some "A", none, none⟩),
    .message 0 (.parsed ⟨some "login", some "B", none, none⟩), .close 0]

/-! ### Helper lemmas about the Map operations and broadcast -/

theorem mapHas_eq_false_iff (k : Option String) (m : List (Option String × Nat)) :
    mapHas k m = false ↔ k ∉ m.map Prod.fst := by
  induction m with
  | nil => simp [mapHas]
  | cons p rest ih =>
    simp only [mapHas, List.any_cons, List.map_cons, List.mem_cons] at *
    constructor
    · intro h
      simp only [Bool.or_eq_false_iff, decide_eq_false_iff_not] at h
      rcases h with ⟨h1, h2⟩
      intro hmem
      rcases hmem with hmem | hmem
      · exact h1 hmem.symm
      · exact (ih.mp h2) hmem
    · intro h
      simp only [Bool.or_eq_false_iff, decide_eq_false_iff_not]
      refine ⟨fun he => h (Or.inl he.symm), ih.mpr fun hmem => h (Or.inr hmem)⟩

theorem mapSet_of_not_has (k : Option String) (v : Nat) (m : List (Option String × Nat))
    (h : mapHas k m = false) : mapSet k v m = m ++ [(k, v)] := by
  induction m with
  | nil => simp [mapSet]
  | cons p rest ih =>
    simp only [mapHas, List.any_cons, Bool.or_eq_false_iff, decide_eq_false_iff_not] at h
    simp only [mapSet, if_neg h.1, List.cons_append, List.cons.injEq, true_and]
    exact ih h.2

theorem mapDelete_sublist (k : Option String) (m : List (Option String × Nat)) :
    List.Sublist (mapDelete k m) m := by
  induction m with
  | nil => simp [mapDelete]
  | cons p rest ih =>
    simp only [mapDelete]
    by_cases h : p.1 = k
    · rw [if_pos h]; exact List.sublist_cons_of_sublist p (List.Sublist.refl rest)
    · rw [if_neg h]; exact ih.cons₂ p

theorem mem_updateUserList (st : ServerState) (c : Session)
    (hc : c ∈ st.clients) (ho : c.isOpen = true) :
    (c.sid, Frame.user_list (st.users.map Prod.fst)) ∈ updateUserList st := by
  unfold updateUserList broadcast
  exact List.mem_map.mpr ⟨c, List.mem_filter.mpr ⟨hc, by simp [ho]⟩, rfl⟩

theorem setUsername_mem (cs : List Session) (sid : Nat) (u : Option String) :
    ∀ c ∈ setUsername cs sid u, c.sid = sid → c.username = u := by
  intro c hc hsid
  simp only [setUsername, List.mem_map] at hc
  rcases hc with ⟨c0, _, hdef⟩
  by_cases h0 : c0.sid = sid
  · rw [← hdef, if_pos h0]
  · rw [← hdef, if_neg h0] at hsid ⊢
    exact absurd hsid h0

theorem closeConn_mem (cs : List Session) (sid : Nat) :
    ∀ c ∈ closeConn cs sid, c.sid = sid → c.isOpen = false := by
  intro c hc hsid
  simp only [closeConn, List.mem_map] at hc
  rcases hc with ⟨c0, _, hdef⟩
  by_cases h0 : c0.sid = sid
  · rw [← hdef, if_pos h0]
  · rw [← hdef, if_neg h0] at hsid ⊢
    exact absurd hsid h0

/-- No object literal in `server.js` has a `timestamp` property, so no
serialized frame carries that key. -/
theorem timestamp_not_mem_frameKeys (f : Frame) : "timestamp" ∉ frameKeys f := by
  cases f with
  | system m => simp [frameKeys]
  | private_message a b => cases a <;> cases b <;> simp [frameKeys, optKey]
  | delivered a b => cases a <;> cases b <;> simp [frameKeys, optKey]
  | typing a => cases a <;> simp [frameKeys, optKey]
  | user_list l => simp [frameKeys]

/-! ### The claims -/

/-- Claim C2: a login frame naming a username already present in the
registry makes the server send `system "Username already taken!"` to the
sender only, terminate the sender's connection, and leave the `users`
registry unchanged — no mapping added or removed, so name uniqueness is
preserved. -/
theorem C2_name_conflict (st : ServerState) (ws : Session) (msg : Msg)
    (hty : msg.type = some "login") (htaken : mapHas msg.username st.users = true) :
    (handleParsed st ws msg).1.users = st.users ∧
    (handleParsed st ws msg).2 = [(ws.sid, .system "Username already taken!")] ∧
    ∀ c ∈ (handleParsed st ws msg).1.clients, c.sid = ws.sid → c.isOpen = false := by
  have hpair : handleParsed st ws msg =
      ({ st with clients := closeConn st.clients ws.sid },
        [(ws.sid, .system "Username already taken!")]) := by
    simp [handleParsed, hty, htaken]
  rw [hpair]
  refine ⟨rfl, rfl, ?_⟩
  intro c hc hsid
  simp only [closeConn, List.mem_map] at hc
  rcases hc with ⟨c0, _, hdef⟩
  by_cases h0 : c0.sid = ws.sid
  · rw [← hdef, if_pos h0]
  · rw [← hdef, if_neg h0] at hsid ⊢
    exact absurd hsid h0

/-- Claim C2 witness: a concrete conflicting login. -/
theorem C2_name_conflict_witness :
    (⟨some "login", some "A", none, none⟩ : Msg).type = some "login" ∧
    mapHas (some "A") [(some "A", 0)] = true ∧
    (handleParsed ⟨[(some "A", 0)], [⟨0, true, some "A"⟩, ⟨1, true, none⟩]⟩
        ⟨1, true, none⟩ ⟨some "login", some "A", none, none⟩).1.users = [(some "A", 0)] := by
  refine ⟨rfl, by decide, ?_⟩
  exact (C2_name_conflict ⟨[(some "A", 0)], [⟨0, true, some "A"⟩, ⟨1, true, none⟩]⟩
    ⟨1, true, none⟩ ⟨some "login", some "A", none, none⟩ rfl (by decide)).1

/-- Claim C1 counterexample: in a concrete successful routing (`A`
sends "hi" to `B`, both logged in and open) the server emits exactly the
recipient's `private_message` frame and the sender's `delivered` frame,
and neither serialized frame contains a `timestamp` key — the claim that
both frames carry a timestamp field is false of the code. -/
theorem C1_counterexample :
    (handleMessage stAB 0 (.parsed ⟨some "private_message", none, some "B", some "hi"⟩)).2 =
      [(1, .private_message (some "A") (some "hi")), (0, .delivered (some "B") (some "hi"))] ∧
    ∀ p ∈ (handleMessage stAB 0
        (.parsed ⟨some "private_message", none, some "B", some "hi"⟩)).2,
      "timestamp" ∉ frameKeys p.2 := by
  refine ⟨by decide, ?_⟩
  intro p _
  exact timestamp_not_mem_frameKeys p.2

/-- Claim C1 (amended): for every successfully routed `private_message`,
the server sends the recipient one `private_message` frame and the
sender exactly one `delivered` frame carrying the same message text; no
`timestamp` field exists on either frame (the code computes none). -/
theorem C1_delivery_pairing (st : ServerState) (ws : Session) (msg : Msg) (rid : Nat)
    (hty : msg.type = some "private_message")
    (hlive : liveRecipient st msg.toName = some rid) :
    (handleParsed st ws msg).2 =
      [(rid, .private_message ws.username msg.message),
        (ws.sid, .delivered msg.toName msg.message)] ∧
    ∀ p ∈ (handleParsed st ws msg).2, "timestamp" ∉ frameKeys p.2 := by
  have hout : (handleParsed st ws msg).2 =
      [(rid, .private_message ws.username msg.message),
        (ws.sid, .delivered msg.toName msg.message)] := by
    simp [handleParsed, hty, hlive]
  refine ⟨hout, ?_⟩
  intro p _
  exact timestamp_not_mem_frameKeys p.2

/-- Claim C1 witness: the amended pairing at a concrete routed message. -/
theorem C1_delivery_pairing_witness :
    (⟨some "private_message", none, some "B", some "hi"⟩ : Msg).type =
        some "private_message" ∧
    liveRecipient stAB (some "B") = some 1 ∧
    (handleParsed stAB ⟨0, true, some "A"⟩
        ⟨some "private_message", none, some "B", some "hi"⟩).2 =
      [(1, .private_message (some "A") (some "hi")),
        (0, .delivered (some "B") (some "hi"))] := by
  refine ⟨rfl, by decide, ?_⟩
  exact (C1_delivery_pairing stAB ⟨0, true, some "A"⟩
    ⟨some "private_message", none, some "B", some "hi"⟩ 1 rfl (by decide)).1

/-- Claim C7: a `private_message` from an authenticated sender to a
recipient that is not live (not in the registry, or its connection not
open) produces exactly one `system "User <to> not available"` frame to
the sender, zero frames to every other session, and no state change. -/
theorem C7_unavailable_recipient (st : ServerState) (ws : Session) (msg : Msg)
    (hty : msg.type = some "private_message") (_hauth : ws.username.isSome = true)
    (hdead : liveRecipient st msg.toName = none) :
    handleParsed st ws msg =
      (st, [(ws.sid, .system ("User " ++ jsStr msg.toName ++ " not available"))]) := by
  simp [handleParsed, hty, hdead]

/-- Claim C7 witness: `A` messages the unregistered name `Z`. -/
theorem C7_unavailable_recipient_witness :
    (⟨0, true, some "A"⟩ : Session).username.isSome = true ∧
    liveRecipient stA (some "Z") = none ∧
    handleParsed stA ⟨0, true, some "A"⟩ ⟨some "private_message", none, some "Z", some "hi"⟩ =
      (stA, [(0, .system "User Z not available")]) := by
  refine ⟨rfl, by decide, ?_⟩
  exact C7_unavailable_recipient stA ⟨0, true, some "A"⟩
    ⟨some "private_message", none, some "Z", some "hi"⟩ rfl rfl (by decide)

/-- Claim C8: a `typing` frame addressed to a name that is not live
produces no outbound frame to any session and no state change. -/
theorem C8_typing_best_effort (st : ServerState) (ws : Session) (msg : Msg)
    (hty : msg.type = some "typing") (hdead : liveRecipient st msg.toName = none) :
    handleParsed st ws msg = (st, []) := by
  simp [handleParsed, hty, hdead]

/-- Claim C8 witness: `A` sends typing to the unregistered name `Z`. -/
theorem C8_typing_best_effort_witness :
    liveRecipient stA (some "Z") = none ∧
    handleParsed stA ⟨0, true, some "A"⟩ ⟨some "typing", none, some "Z", none⟩ =
      (stA, []) := by
  refine ⟨by decide, ?_⟩
  exact C8_typing_best_effort stA ⟨0, true, some "A"⟩
    ⟨some "typing", none, some "Z", none⟩ rfl (by decide)

/-- Claim C10: an authenticated session addressing a `private_message`
to its own display name is routed normally: the sender receives the
`private_message` frame with `from` equal to its own name, followed by
the `delivered` acknowledgement. -/
theorem C10_self_message (st : ServerState) (ws : Session) (msg : Msg) (u : String)
    (hty : msg.type = some "private_message") (huser : ws.username = some u)
    (hto : msg.toName = some u) (hself : liveRecipient st msg.toName = some ws.sid) :
    (handleParsed st ws msg).2 =
      [(ws.sid, .private_message (some u) msg.message),
        (ws.sid, .delivered (some u) msg.message)] := by
  rw [hto] at hself
  simp [handleParsed, hty, huser, hto, hself]

/-- Claim C10 witness: `A` messages `A` in a singleton-roster state. -/
theorem C10_self_message_witness :
    liveRecipient stA (some "A") = some 0 ∧
    (handleParsed stA ⟨0, true, some "A"⟩
        ⟨some "private_message", none, some "A", some "hi"⟩).2 =
      [(0, .private_message (some "A") (some "hi")),
        (0, .delivered (some "A") (some "hi"))] := by
  refine ⟨by decide, ?_⟩
  exact C10_self_message stA ⟨0, true, some "A"⟩
    ⟨some "private_message", none, some "A", some "hi"⟩ "A" rfl rfl rfl (by decide)

/-- Claim C4 counterexample: connection 0 is already authenticated as
`A`, yet its `login{username: "B"}` frame is not rejected — the code
adds a second registry entry `(B, 0)` for the same session and rebinds
the session's display name to `B`. -/
theorem C4_counterexample :
    (handleMessage stA 0 (.parsed ⟨some "login", some "B", none, none⟩)).1.users =
      [(some "A", 0), (some "B", 0)] ∧
    findSession
        (handleMessage stA 0 (.parsed ⟨some "login", some "B", none, none⟩)).1.clients 0 =
      some ⟨0, true, some "B"⟩ := by decide

/-- Claim C4 (amended): a login frame from an already-authenticated
session is processed like any first login — when the requested name is
not yet taken, a second registry entry is appended for that session and
the session's display name is rebound to the new name (the old entry
remains in the registry). -/
theorem C4_relogin_accepted (st : ServerState) (ws : Session) (msg : Msg)
    (hty : msg.type = some "login") (_hauth : ws.username.isSome = true)
    (hfree : mapHas msg.username st.users = false) :
    (handleParsed st ws msg).1.users = st.users ++ [(msg.username, ws.sid)] ∧
    ∀ c ∈ (handleParsed st ws msg).1.clients, c.sid = ws.sid →
      c.username = msg.username := by
  have h1 : (handleParsed st ws msg).1 =
      ⟨mapSet msg.username ws.sid st.users, setUsername st.clients ws.sid msg.username⟩ := by
    simp [handleParsed, hty, hfree]
  constructor
  · rw [h1]
    exact mapSet_of_not_has _ _ _ hfree
  · rw [h1]
    exact setUsername_mem _ _ _

/-- Claim C4 witness: the amended behaviour at the concrete re-login. -/
theorem C4_relogin_accepted_witness :
    (⟨0, true, some "A"⟩ : Session).username.isSome = true ∧
    mapHas (some "B") stA.users = false ∧
    (handleParsed stA ⟨0, true, some "A"⟩ ⟨some "login", some "B", none, none⟩).1.users =
      stA.users ++ [(some "B", 0)] := by
  refine ⟨rfl, by decide, ?_⟩
  exact (C4_relogin_accepted stA ⟨0, true, some "A"⟩
    ⟨some "login", some "B", none, none⟩ rfl rfl (by decide)).1

/-- Claim C5 counterexample: connection 0 has never logged in (still
`Connecting`), yet its `private_message` to the live user `A` is not
ignored — the recipient receives a `private_message` frame (with the
`from` field absent, since `ws.username` is undefined) and the sender
receives a `delivered` frame. -/
theorem C5_counterexample :
    (handleMessage stConnA 0
        (.parsed ⟨some "private_message", none, some "A", some "hi"⟩)).2 =
      [(1, .private_message none (some "hi")), (0, .delivered (some "A") (some "hi"))] ∧
    (handleMessage stConnA 0
        (.parsed ⟨some "private_message", none, some "A", some "hi"⟩)).2 ≠ [] := by
  decide

/-- Claim C5 (amended): a `private_message` or `typing` frame from a
session still in `Connecting` is routed exactly as for an authenticated
sender, with the unset display name flowing through as `undefined`: a
live recipient receives the frame (its serialization omitting the
`from` key) and, for `private_message`, the sender receives the
`delivered` acknowledgement. -/
theorem C5_connecting_not_ignored (st : ServerState) (ws : Session)
    (msgP msgT : Msg) (rid rid2 : Nat) (hconn : ws.username = none)
    (htyP : msgP.type = some "private_message")
    (hliveP : liveRecipient st msgP.toName = some rid)
    (htyT : msgT.type = some "typing")
    (hliveT : liveRecipient st msgT.toName = some rid2) :
    ((handleParsed st ws msgP).2 =
        [(rid, .private_message none msgP.message),
          (ws.sid, .delivered msgP.toName msgP.message)] ∧
      "from" ∉ frameKeys (Frame.private_message none msgP.message)) ∧
    (handleParsed st ws msgT).2 = [(rid2, .typing none)] := by
  refine ⟨⟨?_, ?_⟩, ?_⟩
  · simp [handleParsed, htyP, hliveP, hconn]
  · cases msgP.message <;> simp [frameKeys, optKey]
  · simp [handleParsed, htyT, hliveT, hconn]

/-- Claim C5 witness: the amended routing at concrete frames from the
connecting session 0. -/
theorem C5_connecting_not_ignored_witness :
    liveRecipient stConnA (some "A") = some 1 ∧
    (handleParsed stConnA ⟨0, true, none⟩
        ⟨some "private_message", none, some "A", some "hi"⟩).2 =
      [(1, .private_message none (some "hi")),
        (0, .delivered (some "A") (some "hi"))] ∧
    (handleParsed stConnA ⟨0, true, none⟩ ⟨some "typing", none, some "A", none⟩).2 =
      [(1, .typing none)] := by
  refine ⟨by decide, ?_, ?_⟩
  · exact (C5_connecting_not_ignored stConnA ⟨0, true, none⟩
      ⟨some "private_message", none, some "A", some "hi"⟩
      ⟨some "typing", none, some "A", none⟩ 1 1 rfl rfl (by decide) rfl (by decide)).1.1
  · exact (C5_connecting_not_ignored stConnA ⟨0, true, none⟩
      ⟨some "private_message", none, some "A", some "hi"⟩
      ⟨some "typing", none, some "A", none⟩ 1 1 rfl rfl (by decide) rfl (by decide)).2

/-- Claim C6 counterexample: a parseable `login` frame missing its
required `username` field is not dropped — the server registers the
`undefined` key, replies `Welcome, undefined!`, and broadcasts the
roster, mutating state and sending frames. -/
theorem C6_counterexample :
    handleMessage stConn 0 (.parsed ⟨some "login", none, none, none⟩) =
      (⟨[(none, 0)], [⟨0, true, none⟩]⟩,
        [(0, .system "Welcome, undefined!"), (0, .user_list [none])]) := by decide

/-- Claim C6 (amended): an inbound frame that fails `JSON.parse` is
dropped in every session state: no reply frame is sent, no state is
mutated (so the connection's open flag is untouched).  A parseable frame
with a missing required field is, however, processed with the missing
field as `undefined` rather than dropped. -/
theorem C6_unparseable_dropped (st : ServerState) (sid : Nat) :
    handleMessage st sid .malformed = (st, []) := rfl

/-- Claim C3 counterexample: after the trace "connect 0, login A,
login B (same connection), close 0" every operation has completed, yet
the registry still holds the stale entry `(A, 0)`: its size (1) differs
from the number of authenticated open sessions (0), and that entry maps
to a closed session. -/
theorem C3_counterexample :
    (run initState c3Trace).users.length = 1 ∧
    authOpenCount (run initState c3Trace) = 0 ∧
    ∃ p ∈ (run initState c3Trace).users, ∃ c ∈ (run initState c3Trace).clients,
      c.sid = p.2 ∧ c.isOpen = false := by decide

/-- Claim C3 (amended): of the three clauses of the invariant, only name
uniqueness survives: after every operation no two registry entries share
a display name (each step either leaves the key list unchanged, appends
a key checked to be absent, or removes keys).  The registry size can
exceed the number of authenticated open sessions, and an entry can map
to a closed session, because a re-login under a fresh name leaves the
old entry stale. -/
theorem C3_registry_names_nodup (st : ServerState) (e : Event)
    (h : (st.users.map Prod.fst).Nodup) :
    ((step st e).1.users.map Prod.fst).Nodup := by
  cases e with
  | connect sid => simpa [step] using h
  | message sid inb =>
    cases inb with
    | malformed => simpa [step, handleMessage] using h
    | parsed msg =>
      simp only [step, handleMessage]
      cases hfind : findSession st.clients sid with
      | none => simpa using h
      | some ws =>
        by_cases hty : msg.type = some "login"
        · by_cases htaken : mapHas msg.username st.users = true
          · simpa [handleParsed, hty, htaken] using h
          · have hfree : mapHas msg.username st.users = false := by
              revert htaken
              cases mapHas msg.username st.users <;> simp
            have h1 : (handleParsed st ws msg).1.users =
                st.users ++ [(msg.username, ws.sid)] := by
              simp [handleParsed, hty, hfree, mapSet_of_not_has _ _ _ hfree]
            rw [h1, List.map_append, List.map_cons, List.map_nil, List.nodup_append]
            refine ⟨h, List.nodup_singleton _, ?_⟩
            rw [List.disjoint_singleton]
            exact (mapHas_eq_false_iff _ _).mp hfree
        · simpa [handleParsed, hty] using h
  | close sid =>
    simp only [step, handleClose]
    cases hfind : findSession st.clients sid with
    | none => simpa using h
    | some ws =>
      by_cases htr : truthy ws.username = true
      · simp only [htr, if_true]
        exact h.sublist ((mapDelete_sublist _ _).map Prod.fst)
      · have htr2 : truthy ws.username = false := by
          revert htr
          cases truthy ws.username <;> simp
        simpa [htr2] using h

/-- Claim C3 witness: name uniqueness preserved across a concrete login
step from a registry that satisfies it. -/
theorem C3_registry_names_nodup_witness :
    (stA.users.map Prod.fst).Nodup ∧
    (((step stA
        (.message 0 (.parsed ⟨some "login", some "B", none, none⟩))).1.users.map
          Prod.fst).Nodup) := by
  refine ⟨by decide, ?_⟩
  exact C3_registry_names_nodup stA
    (.message 0 (.parsed ⟨some "login", some "B", none, none⟩)) (by decide)

/-- Claim C9: both triggers of `updateUserList` broadcast the full
roster.  On a successful login the registry key list becomes the old
roster with the new name appended (login order), and every open
connection — authenticated or still connecting — receives the
`user_list` frame carrying that entire roster.  On the disconnect of a
session with a (truthy) display name, the output is exactly the
`updateUserList` broadcast, and again every open connection receives
the full-roster frame. -/
theorem C9_user_list_broadcast (st : ServerState) (ws ws2 : Session) (msg : Msg)
    (sid : Nat) (hty : msg.type = some "login")
    (hfree : mapHas msg.username st.users = false)
    (hfind : findSession st.clients sid = some ws2)
    (hauth : truthy ws2.username = true) :
    ((handleParsed st ws msg).1.users.map Prod.fst =
        st.users.map Prod.fst ++ [msg.username] ∧
      ∀ c ∈ (handleParsed st ws msg).1.clients, c.isOpen = true →
        (c.sid, Frame.user_list ((handleParsed st ws msg).1.users.map Prod.fst))
          ∈ (handleParsed st ws msg).2) ∧
    ((handleClose st sid).2 = updateUserList (handleClose st sid).1 ∧
      ∀ c ∈ (handleClose st sid).1.clients, c.isOpen = true →
        (c.sid, Frame.user_list ((handleClose st sid).1.users.map Prod.fst))
          ∈ (handleClose st sid).2) := by
  have hlogin : handleParsed st ws msg =
      (⟨mapSet msg.username ws.sid st.users, setUsername st.clients ws.sid msg.username⟩,
        (ws.sid, Frame.system ("Welcome, " ++ jsStr msg.username ++ "!")) ::
          updateUserList
            ⟨mapSet msg.username ws.sid st.users,
              setUsername st.clients ws.sid msg.username⟩) := by
    simp [handleParsed, hty, hfree]
  have hclose : handleClose st sid =
      (⟨mapDelete ws2.username st.users, closeConn st.clients sid⟩,
        updateUserList ⟨mapDelete ws2.username st.users, closeConn st.clients sid⟩) := by
    simp [handleClose, hfind, hauth]
  refine ⟨⟨?_, ?_⟩, ?_, ?_⟩
  · rw [hlogin, mapSet_of_not_has _ _ _ hfree]
    simp
  · rw [hlogin]
    intro c hc ho
    exact List.mem_cons_of_mem _ (mem_updateUserList _ c hc ho)
  · rw [hclose]
  · rw [hclose]
    intro c hc ho
    exact mem_updateUserList _ c hc ho

/-- Claim C9 witness: `B` logs in on the connecting connection 1 while
`A` (connection 0) is authenticated; and the close trigger for
connection 0. -/
theorem C9_user_list_broadcast_witness :
    mapHas (some "B") stAConn.users = false ∧
    findSession stAConn.clients 0 = some ⟨0, true, some "A"⟩ ∧
    (handleParsed stAConn ⟨1, true, none⟩
        ⟨some "login", some "B", none, none⟩).1.users.map Prod.fst =
      stAConn.users.map Prod.fst ++ [some "B"] := by
  refine ⟨by decide, by decide, ?_⟩
  exact (C9_user_list_broadcast stAConn ⟨1, true, none⟩ ⟨0, true, some "A"⟩
    ⟨some "login", some "B", none, none⟩ 0 rfl (by decide) (by decide) (by decide)).1.1

end WebSocketChat
